import Mathlib

/-!
Shallow embedding of `src/app/ui/DefectWebUi/src/main.cpp`
(repository a1112/Web-Defect-Detection-System).

The program is a Qt GUI shell: a `FrameBridge` object holding a single
`QUrl` property with an equality-guarded setter and change notification,
a string-parsing setter, a reset-to-placeholder method, and a `main`
function that bootstraps the bridge, loads a QML file and maps the two
load-failure paths to exit code `-1`.

Qt library types are modelled minimally: a `QUrl` is its text, two
`QUrl`s are equal when their texts are, and (per Qt's documented
behaviour) an empty `QUrl` is not valid.  Signal emission is modelled by
returning, next to the new state, the number of `sourceUrlChanged`
notifications emitted during the call.
-/

/-- Minimal model of Qt's `QUrl`: the URL text.  Equality of two `QUrl`
values is equality of their texts. -/
structure QUrl where
  text : String
deriving DecidableEq, Repr

/-- Model of the `QUrl(const QString &)` constructor used by
`loadFromString` and `useSample`. -/
def QUrl.ofString (s : String) : QUrl := ⟨s⟩

/-- Model of a default-constructed `QUrl` (the initial value of the
member `m_sourceUrl`): the empty URL. -/
def QUrl.empty : QUrl := ⟨""⟩

/-- Model of `QUrl::isValid()`: an empty URL is not valid. -/
def QUrl.isValid (u : QUrl) : Bool := !u.text.isEmpty

/-- The fixed placeholder resource used by `FrameBridge::useSample`:
`QUrl(QStringLiteral("qrc:/resources/images/placeholder.png"))`. -/
def placeholderUrl : QUrl := QUrl.ofString "qrc:/resources/images/placeholder.png"

/-- The UI-description locator requested by `main`:
`QUrl(QStringLiteral("qrc:/qt/qml/DefectWebUi/main.qml"))`. -/
def mainQmlUrl : QUrl := QUrl.ofString "qrc:/qt/qml/DefectWebUi/main.qml"

/-- State of a `FrameBridge` object: its single data member
`QUrl m_sourceUrl`. -/
structure FrameBridge where
  m_sourceUrl : QUrl
deriving DecidableEq, Repr

/-- The `FrameBridge` constructor: its body is empty, so `m_sourceUrl`
is default-constructed (the empty URL). -/
def FrameBridge.init : FrameBridge := ⟨QUrl.empty⟩

/-- `FrameBridge::sourceUrl() const`: returns the current value. -/
def FrameBridge.sourceUrl (b : FrameBridge) : QUrl := b.m_sourceUrl

/-- `FrameBridge::setSourceUrl(const QUrl &url)`: if `url` equals the
current value, return without changing anything and without emitting;
otherwise store `url` and emit `sourceUrlChanged` once.  The second
component counts the notifications emitted during the call. -/
def FrameBridge.setSourceUrl (b : FrameBridge) (url : QUrl) : FrameBridge × Nat :=
  if url = b.m_sourceUrl then
    (b, 0)
  else
    (⟨url⟩, 1)

/-- `FrameBridge::loadFromString(const QString &urlString)`: build a
candidate `QUrl` from the string; if it is not valid, return without
doing anything; otherwise delegate to `setSourceUrl`. -/
def FrameBridge.loadFromString (b : FrameBridge) (urlString : String) : FrameBridge × Nat :=
  let candidate := QUrl.ofString urlString
  if !candidate.isValid then
    (b, 0)
  else
    b.setSourceUrl candidate

/-- `FrameBridge::useSample()`: delegate to `setSourceUrl` with the
fixed placeholder URL. -/
def FrameBridge.useSample (b : FrameBridge) : FrameBridge × Nat :=
  b.setSourceUrl placeholderUrl

/-- The bridge as `main` prepares it before registering it with the QML
engine: `FrameBridge frameBridge; frameBridge.useSample();`. -/
def bootBridge : FrameBridge := (FrameBridge.init.useSample).1

/-- Model of the queued `objectCreated` callback in `main`: given the
requested locator `url` and the callback arguments `obj`/`objUrl`, it
requests process exit with code `-1` when no object was created for the
exact requested locator, and does nothing otherwise. -/
def objectCreatedHandler (url : QUrl) (obj : Option Unit) (objUrl : QUrl) : Option Int :=
  if obj.isNone && decide (url = objUrl) then some (-1) else none

/-- Model of the tail of `main` after `engine.load(url)`:
if `engine.rootObjects().isEmpty()` then `main` returns `-1`
immediately; otherwise `app.exec()` runs, returning the code passed to a
queued `QCoreApplication::exit` call when one fired, and the event
loop's own return value otherwise. -/
def mainExit (rootObjectsEmpty : Bool) (queuedExit : Option Int) (loopReturn : Int) : Int :=
  if rootObjectsEmpty then
    -1
  else
    match queuedExit with
    | some e => e
    | none => loopReturn

/-- The three process-wide identification strings set by `main` via
`QCoreApplication::setOrganizationName` / `setOrganizationDomain` /
`setApplicationName`. -/
structure AppMeta where
  organizationName : String
  organizationDomain : String
  applicationName : String
deriving DecidableEq, Repr

/-- Process state relevant to the bridge: the identification metadata
and the bridge object. -/
structure AppState where
  meta : AppMeta
  bridge : FrameBridge
deriving DecidableEq, Repr

/-- One operation on the holder as exposed to the UI: read the property,
set it directly, set it from text, or reset to the sample. -/
inductive BridgeOp where
  | get
  | setUrl (u : QUrl)
  | loadText (s : String)
  | sample
deriving DecidableEq, Repr

/-- Apply one holder operation to the process state.  The observation is
the property value visible after the call together with the number of
`sourceUrlChanged` notifications emitted during it. -/
def AppState.applyOp (st : AppState) : BridgeOp → AppState × (QUrl × Nat)
  | .get => (st, (st.bridge.sourceUrl, 0))
  | .setUrl u =>
      let r := st.bridge.setSourceUrl u
      ({ st with bridge := r.1 }, (r.1.sourceUrl, r.2))
  | .loadText s =>
      let r := st.bridge.loadFromString s
      ({ st with bridge := r.1 }, (r.1.sourceUrl, r.2))
  | .sample =>
      let r := st.bridge.useSample
      ({ st with bridge := r.1 }, (r.1.sourceUrl, r.2))

/-- Run a sequence of holder operations, collecting the observations. -/
def AppState.runOps (st : AppState) : List BridgeOp → List (QUrl × Nat)
  | [] => []
  | op :: ops =>
      let r := st.applyOp op
      r.2 :: r.1.runOps ops

/-- Claim C1, counterexample: immediately after the `FrameBridge`
constructor the locator is not the placeholder (the constructor body is
empty, so the member is a default-constructed, empty URL). -/
theorem construction_default_not_placeholder :
    FrameBridge.init.sourceUrl ≠ placeholderUrl := by
  decide

/-- Claim C1 as amended: immediately after construction the holder's
locator is the empty URL, not the placeholder; the placeholder default
is established by the bootstrap's `useSample()` call, which stores the
placeholder and emits one notification. -/
theorem default_established_by_bootstrap :
    FrameBridge.init.sourceUrl = QUrl.empty ∧
    (FrameBridge.init.useSample).1.sourceUrl = placeholderUrl ∧
    (FrameBridge.init.useSample).2 = 1 := by
  refine ⟨rfl, ?_, ?_⟩ <;> decide

/-- Claim C2: a string whose parse is an invalid URL — the empty string
in particular — makes `loadFromString` a no-op: the state is unchanged
and no notification is emitted (and the return type carries no failure
signal). -/
theorem loadFromString_invalid_noop :
    (QUrl.ofString "").isValid = false ∧
    ∀ (b : FrameBridge) (s : String), (QUrl.ofString s).isValid = false →
      b.loadFromString s = (b, 0) := by
  refine ⟨rfl, ?_⟩
  intro b s h
  simp [FrameBridge.loadFromString, h]

/-- Witness for C2 at the concrete input `""`. -/
theorem loadFromString_invalid_noop_witness :
    (QUrl.ofString "").isValid = false ∧
    FrameBridge.init.loadFromString "" = (FrameBridge.init, 0) :=
  ⟨rfl, loadFromString_invalid_noop.2 FrameBridge.init "" rfl⟩

/-- Claim C3: calling `setSourceUrl` with a candidate equal to the
current value is a no-op: the state is unchanged and no notification is
emitted. -/
theorem setSourceUrl_equal_noop (b : FrameBridge) (u : QUrl) (h : u = b.sourceUrl) :
    b.setSourceUrl u = (b, 0) := by
  simp [FrameBridge.sourceUrl] at h
  simp [FrameBridge.setSourceUrl, h]

/-- Witness for C3: setting the bootstrapped bridge to its current
placeholder value changes nothing and emits nothing. -/
theorem setSourceUrl_equal_noop_witness :
    placeholderUrl = bootBridge.sourceUrl ∧
    bootBridge.setSourceUrl placeholderUrl = (bootBridge, 0) :=
  ⟨by decide, setSourceUrl_equal_noop bootBridge placeholderUrl (by decide)⟩

/-- Claim C4: calling `setSourceUrl` with a candidate distinct from the
current value replaces the stored value with the candidate and emits
exactly one notification. -/
theorem setSourceUrl_distinct_updates (b : FrameBridge) (u : QUrl) (h : u ≠ b.sourceUrl) :
    b.setSourceUrl u = (⟨u⟩, 1) := by
  simp [FrameBridge.sourceUrl] at h
  simp [FrameBridge.setSourceUrl, h]

/-- Witness for C4 at a freshly constructed bridge and the placeholder
URL. -/
theorem setSourceUrl_distinct_updates_witness :
    placeholderUrl ≠ FrameBridge.init.sourceUrl ∧
    FrameBridge.init.setSourceUrl placeholderUrl = (⟨placeholderUrl⟩, 1) :=
  ⟨by decide, setSourceUrl_distinct_updates FrameBridge.init placeholderUrl (by decide)⟩

/-- Claim C5: `setSourceUrl` performs no validation and never fails: for
every candidate, valid or not, distinct from the current value, the
stored value becomes exactly that candidate. -/
theorem setSourceUrl_no_validation (b : FrameBridge) (u : QUrl) (h : u ≠ b.sourceUrl) :
    (b.setSourceUrl u).1.sourceUrl = u := by
  simp [FrameBridge.sourceUrl] at h
  simp [FrameBridge.setSourceUrl, FrameBridge.sourceUrl, h]

/-- Witness for C5 at an invalid (empty) candidate: the empty URL is
not valid, yet the setter stores it. -/
theorem setSourceUrl_no_validation_witness :
    QUrl.empty.isValid = false ∧
    QUrl.empty ≠ bootBridge.sourceUrl ∧
    (bootBridge.setSourceUrl QUrl.empty).1.sourceUrl = QUrl.empty :=
  ⟨rfl, by decide, setSourceUrl_no_validation bootBridge QUrl.empty (by decide)⟩

/-- Claim C6: `useSample` always leaves the stored locator equal to the
fixed placeholder, and follows the equality-skip rule of the direct
setter: one notification when the prior value differed from the
placeholder, none when it already equaled it. -/
theorem useSample_deterministic (b : FrameBridge) :
    (b.useSample).1.sourceUrl = placeholderUrl ∧
    (b.useSample).2 = (if b.sourceUrl = placeholderUrl then 0 else 1) := by
  by_cases h : placeholderUrl = b.m_sourceUrl <;>
    simp [FrameBridge.useSample, FrameBridge.setSourceUrl, FrameBridge.sourceUrl, h, eq_comm]

/-- Claim C7: the queued `objectCreated` handler requests exit code `-1`
exactly when no object was created for the exact requested locator; the
synchronous empty-root-objects check makes `main` return `-1`; a queued
exit of `-1` makes the run return `-1`; and a normal run returns the
event loop's value. -/
theorem main_exit_codes :
    (∀ (obj : Option Unit) (objUrl : QUrl),
        objectCreatedHandler mainQmlUrl obj objUrl = some (-1) ↔
          (obj = none ∧ objUrl = mainQmlUrl)) ∧
    (∀ (q : Option Int) (r : Int), mainExit true q r = -1) ∧
    (∀ (r : Int), mainExit false (some (-1)) r = -1) ∧
    (∀ (r : Int), mainExit false none r = r) := by
  refine ⟨?_, ?_, ?_, ?_⟩
  · intro obj objUrl
    cases obj <;> simp [objectCreatedHandler, eq_comm]
  · intro q r
    rfl
  · intro r
    rfl
  · intro r
    rfl

/-- Claim C8: the three process-wide identification strings have no
effect on holder behavior: two runs that differ only in the metadata
produce identical observations for every operation sequence. -/
theorem metadata_no_functional_effect (m₁ m₂ : AppMeta) (b : FrameBridge) (ops : List BridgeOp) :
    AppState.runOps ⟨m₁, b⟩ ops = AppState.runOps ⟨m₂, b⟩ ops := by
  induction ops generalizing b with
  | nil => rfl
  | cons op ops ih =>
      cases op <;> simp [AppState.runOps, AppState.applyOp] <;> exact ih _

/-- Claim C9: immediately after the `FrameBridge` constructor alone the
getter returns the empty locator, not the placeholder; the placeholder
observed by the UI is produced by the separate `useSample()` call that
`main` makes during bootstrap. -/
theorem constructor_empty_then_bootstrap_placeholder :
    FrameBridge.init.sourceUrl = QUrl.empty ∧
    FrameBridge.init.sourceUrl ≠ placeholderUrl ∧
    bootBridge.sourceUrl = placeholderUrl := by
  refine ⟨rfl, ?_, ?_⟩ <;> decide

/-- Claim C10: on each of the three mutation paths the number of
notifications emitted is `1` when the stored value changed and `0` when
it did not — a notification is emitted iff the value changed. -/
theorem notify_iff_value_changed (b : FrameBridge) (u : QUrl) (s : String) :
    ((b.setSourceUrl u).2 =
        if (b.setSourceUrl u).1.sourceUrl = b.sourceUrl then 0 else 1) ∧
    ((b.loadFromString s).2 =
        if (b.loadFromString s).1.sourceUrl = b.sourceUrl then 0 else 1) ∧
    ((b.useSample).2 =
        if (b.useSample).1.sourceUrl = b.sourceUrl then 0 else 1) := by
  refine ⟨?_, ?_, ?_⟩
  · by_cases h : u = b.m_sourceUrl <;>
      simp [FrameBridge.setSourceUrl, FrameBridge.sourceUrl, h]
  · by_cases hv : (QUrl.ofString s).isValid <;>
      by_cases h : QUrl.ofString s = b.m_sourceUrl <;>
        simp [FrameBridge.loadFromString, FrameBridge.setSourceUrl, FrameBridge.sourceUrl, hv, h]
  · by_cases h : placeholderUrl = b.m_sourceUrl <;>
      simp [FrameBridge.useSample, FrameBridge.setSourceUrl, FrameBridge.sourceUrl, h]
